import Mathlib

/-!
Verification of the Legend Cyber Analyzer core (src/server.js) against its
natural-language specification.

The JavaScript source is shallowly embedded: every network-facing helper is
modelled as a pure function of an explicit outcome oracle (the result the
network would have produced), JavaScript objects become structures whose
fields are `Option`s (`none` = the key is absent), and a JSON value that may
be `null` is an inner `Option` (`some none` = the key is present with value
`null`).  Request handlers become pure functions from a request plus an
oracle environment to a response together with the ordered list of
collaborator probes they invoked.
-/

set_option autoImplicit false

namespace LegendCyber

/-! ### Character classes used by the regexes in server.js -/

/-- The regex class `\d` (line 145 and 195 of server.js). -/
def digitChar (c : Char) : Bool :=
  48 ≤ c.toNat && c.toNat ≤ 57

/-- The regex class `[a-z]` under the `i` flag (line 190 of server.js). -/
def asciiLetter (c : Char) : Bool :=
  (97 ≤ c.toNat && c.toNat ≤ 122) || (65 ≤ c.toNat && c.toNat ≤ 90)

/-- The regex class `[a-z0-9.-]` under the `i` flag (line 190 of server.js). -/
def hostChar (c : Char) : Bool :=
  asciiLetter c || digitChar c || c == '.' || c == '-'

/-- Splitting a character list at every dot, keeping empty segments, as the
anchored regexes over dot-separated runs read their subject. -/
def splitOnDot : List Char → List (List Char)
  | [] => [[]]
  | c :: rest =>
    let r := splitOnDot rest
    if c = '.' then [] :: r
    else
      match r with
      | [] => [[c]]
      | h :: t => (c :: h) :: t

/-- The test `/^\d+\.\d+\.\d+\.\d+$/.test target` from lines 145 and 195 of
server.js: exactly four dot-separated nonempty digit runs. -/
def isIPv4 (s : String) : Bool :=
  let parts := splitOnDot s.toList
  parts.length == 4 && parts.all (fun p => !p.isEmpty && p.all digitChar)

/-- The test `/^[a-z0-9.-]+\.[a-z]{2,}$/i.test target` from line 190 of
server.js: every character in the host class, at least one dot, everything
after the last dot at least two letters, and a nonempty run before that
dot. -/
def isDomainLike (s : String) : Bool :=
  let cs := s.toList
  let parts := splitOnDot cs
  let tld := parts.getLastD []
  cs.all hostChar
    && decide (2 ≤ parts.length)
    && decide (2 ≤ tld.length)
    && tld.all asciiLetter
    && (match parts with
        | [label, _] => !label.isEmpty
        | _ => true)

/-- `runStarts pat s` holds when the character run `pat` begins `s`. -/
def runStarts : List Char → List Char → Bool
  | [], _ => true
  | _ :: _, [] => false
  | p :: ps, c :: cs => p == c && runStarts ps cs

/-- `runInside pat s` holds when the character run `pat` occurs somewhere
inside `s`. -/
def runInside (pat : List Char) : List Char → Bool
  | [] => runStarts pat []
  | c :: cs => runStarts pat (c :: cs) || runInside pat cs

/-- Case-insensitive substring test, embedding `/google/i.test s` from line
128 of server.js with `token = "google"`. -/
def containsCI (token s : String) : Bool :=
  runInside (token.toList.map Char.toLower) (s.toList.map Char.toLower)

/-- JavaScript truthiness of an optional string (`ip || null`, `if (ip)`):
`null`/absent and the empty string are falsy. -/
def jsTruthy (o : Option String) : Option String :=
  match o with
  | some s => if s.toList.isEmpty then none else some s
  | none => none

/-! ### Target classification -/

/-- Line 145 of server.js, fallback branch:
`/^\d+\.\d+\.\d+\.\d+$/.test(target) ? "ip" : "domain"`. -/
def autoClassify (target : String) : String :=
  if isIPv4 target then "ip" else "domain"

/-- Line 145 of server.js:
`let t = type || (/^\d+\.\d+\.\d+\.\d+$/.test(target) ? "ip" : "domain")`.
A supplied but empty `type` string is falsy in JavaScript and falls back to
the pattern match. -/
def classifyBasic (ty : Option String) (target : String) : String :=
  match ty with
  | some t => if t.toList.isEmpty then autoClassify target else t
  | none => autoClassify target

/-! ### Collaborator outcome oracles and the absorb-on-failure helpers -/

/-- The outcome the network produces for one `fetch` call: a parsed body
when `r.ok`, a non-success HTTP status, or a thrown error. -/
inductive FetchOutcome (α : Type) where
  | ok (v : α)
  | httpError (status : Nat)
  | exn (msg : String)
  deriving DecidableEq, Repr

/-- The geolocation record returned by ip-api.com (lines 59-65 of
server.js); only the fields the program reads are modelled, each may be
absent. -/
structure GeoRecord where
  country : Option String := none
  isp : Option String := none
  org : Option String := none
  deriving DecidableEq, Repr

/-- The value produced by a configured Shodan lookup: the parsed body, or a
record carrying an error description (lines 90-92 of server.js). -/
inductive ShodanResult where
  | data (payload : String)
  | failure (msg : String)
  deriving DecidableEq, Repr

/-- `resolveToIp` (lines 50-57 of server.js): a DNS lookup outcome is
absorbed to `null` on any thrown error. -/
def resolveToIp (host : String) (outcome : Except String String) : Option String :=
  match host, outcome with
  | _, Except.ok a => some a
  | _, Except.error _ => none

/-- `ipGeo` (lines 59-65 of server.js): only an `r.ok` response yields a
record; a non-success status or a thrown error is absorbed to `null`. -/
def ipGeo (ip : String) (outcome : FetchOutcome GeoRecord) : Option GeoRecord :=
  match ip, outcome with
  | _, FetchOutcome.ok v => some v
  | _, FetchOutcome.httpError _ => none
  | _, FetchOutcome.exn _ => none

/-- `rdapLookup` (lines 67-74 of server.js): same absorb-on-failure policy;
the payload is kept opaque. -/
def rdapLookup (target ty : String) (outcome : FetchOutcome String) : Option String :=
  match target, ty, outcome with
  | _, _, FetchOutcome.ok v => some v
  | _, _, FetchOutcome.httpError _ => none
  | _, _, FetchOutcome.exn _ => none

/-- `whoisLookup` (lines 76-82 of server.js): a thrown error is absorbed to
`null`. -/
def whoisLookup (domain : String) (outcome : Except String String) : Option String :=
  match domain, outcome with
  | _, Except.ok r => some r
  | _, Except.error _ => none

/-- `shodanLookup` (lines 84-94 of server.js): `null` when no key is
configured; with a key, an `r.ok` body on success, and otherwise a record
carrying an error description (`shodan:<status>` or the exception
message). -/
def shodanLookup (ip : String) (key : Option String) (outcome : FetchOutcome String) : Option ShodanResult :=
  match ip, key with
  | _, none => none
  | _, some _ =>
    match outcome with
    | FetchOutcome.ok v => some (ShodanResult.data v)
    | FetchOutcome.httpError st => some (ShodanResult.failure ("shodan:" ++ toString st))
    | FetchOutcome.exn m => some (ShodanResult.failure m)

/-! ### The TCP port scanner -/

/-- How one socket probe completes (lines 96-109 of server.js): the
`connect` event fires before the timeout; an `error` event fires (an active
refusal or any other socket error) followed by `close`; the timeout elapses
and the socket is destroyed; or the probe fails locally in an unexpected
way so that the promise rejects instead of resolving. -/
inductive PortProbe where
  | connected
  | errorEvent
  | timedOut
  | localFailure (msg : String)
  deriving DecidableEq, Repr

/-- One entry of the port-scan output: `{ port, status }` with status one of
`"open"`, `"closed"`, `"error"`. -/
structure PortResult where
  port : Nat
  status : String
  deriving DecidableEq, Repr

/-- `scanPort` (lines 96-109 of server.js): `status` starts `"closed"`, the
`connect` event flips it to `"open"`, the `error` and `timeout` events leave
it `"closed"`, and the `close` event resolves the promise with the current
status; an unexpected local failure rejects the promise instead. -/
def scanPort (host : String) (port : Nat) (timeout : Nat) (o : PortProbe) : Except String PortResult :=
  match host, timeout, o with
  | _, _, PortProbe.connected => Except.ok { port := port, status := "open" }
  | _, _, PortProbe.errorEvent => Except.ok { port := port, status := "closed" }
  | _, _, PortProbe.timedOut => Except.ok { port := port, status := "closed" }
  | _, _, PortProbe.localFailure msg => Except.error msg

/-- Sequential loop of `scanPorts` (lines 111-121 of server.js), carrying
the position of the current port; `probe i p` is the completion of the
socket probe for the port `p` at position `i`. -/
def scanPortsAux (host : String) (probe : Nat → Nat → PortProbe) : Nat → List Nat → List PortResult
  | _, [] => []
  | i, p :: ps =>
    (match scanPort host p 1000 (probe i p) with
     | Except.ok r => r
     | Except.error _ => { port := p, status := "error" }) :: scanPortsAux host probe (i + 1) ps

/-- `scanPorts` (lines 111-121 of server.js): probe every port in order,
pushing `{ port, status: "error" }` when one probe's promise rejects rather
than aborting the loop. -/
def scanPorts (host : String) (probe : Nat → Nat → PortProbe) (ports : List Nat) : List PortResult :=
  scanPortsAux host probe 0 ports

/-- `COMMON_PORTS` (line 133 of server.js). -/
def COMMON_PORTS : List Nat :=
  [80, 443, 21, 22, 25, 53, 110, 143, 161, 3306, 3389, 5900, 8080, 8443, 587, 993, 995, 2082, 2083, 8444]

/-! ### The scan record and the score engine -/

/-- The `out.checks` object: keys `rdap` and `https` are set only when the
corresponding check was attempted. -/
structure CheckFlags where
  https : Option Bool := none
  rdap : Option Bool := none
  deriving DecidableEq, Repr

/-- The `out.details` object built by the deep-scan handler (lines 189-200
of server.js).  An outer `none` means the key was never assigned; an inner
`none` means it was assigned `null` by an absorbed failure. -/
structure Details where
  whois : Option (Option String) := none
  rdap : Option (Option String) := none
  geo : Option (Option GeoRecord) := none
  ports : Option (List PortResult) := none
  shodan : Option (Option ShodanResult) := none
  deriving DecidableEq, Repr

/-- The response object `out` of both handlers, with one field per key
either handler may assign (`none` = key absent from the JSON response).
The impure `when` timestamp is not modelled.  `ports` at top level is
assigned by neither handler (the deep scan stores its port results under
`details.ports`). -/
structure Out where
  target : String
  ty : Option String := none
  checks : Option CheckFlags := none
  rdap : Option (Option String) := none
  whois : Option (Option String) := none
  resolved_ip : Option (Option String) := none
  geo : Option (Option GeoRecord) := none
  https_status : Option Nat := none
  hints : Option String := none
  details : Option Details := none
  ports : Option (List PortResult) := none
  score : Option Int := none
  deriving DecidableEq, Repr

/-- `heuristicScore` (lines 124-130 of server.js): baseline 50; `+15` when
`out.checks?.https === false`; `+10` when `out.checks?.rdap === false`;
`-8` when `out.geo?.isp` is truthy and matches `/google/i`; clamped by
`Math.max(0, Math.min(100, s))`. -/
def heuristicScore (out : Out) : Int :=
  let s0 : Int := 50
  let s1 := if out.checks.bind CheckFlags.https == some false then s0 + 15 else s0
  let s2 := if out.checks.bind CheckFlags.rdap == some false then s1 + 10 else s1
  let s3 := if ((out.geo.bind id).bind GeoRecord.isp).any (fun isp => !isp.toList.isEmpty && containsCI "google" isp) then s2 - 8 else s2
  max 0 (min 100 s3)

/-! ### The request handlers -/

/-- The HTTP response a handler sends: the 400 client error, the 403
authorization failure of the deep scan, or `res.json out`. -/
inductive Resp where
  | badRequest (msg : String)
  | authDenied (msg : String)
  | ok (out : Out)
  deriving DecidableEq, Repr

/-- One collaborator invocation, for recording which probes a handler ran
and in which order. -/
inductive Probe where
  | dns
  | rdap
  | whois
  | geo
  | https
  | portConnect
  | shodan
  deriving DecidableEq, Repr

/-- The outcome oracle for one basic scan: what each collaborator would
return if invoked. -/
structure BasicEnv where
  rdapOutcome : FetchOutcome String
  whoisOutcome : Except String String
  dnsOutcome : Except String String
  geoOutcome : FetchOutcome GeoRecord
  httpsOk : Except String (Bool × Nat)
  deriving Repr

/-- The body of `POST /api/scan` (lines 141-176 of server.js). -/
structure BasicReq where
  target : Option String := none
  ty : Option String := none
  deriving DecidableEq, Repr

/-- The probe-and-merge body of the basic handler given the validated
target and the classified type `t` (lines 146-169 of server.js), returning
the scored record and the collaborators invoked in order. -/
def basicBody (env : BasicEnv) (target t : String) : Out × List Probe :=
  if t == "domain" || t == "ip" then
    let rdapRes := rdapLookup target t env.rdapOutcome
    let whoisRes : Option (Option String) :=
      if t == "domain" then some (whoisLookup target env.whoisOutcome) else none
    let ipRaw : Option String :=
      if t == "ip" then some target else resolveToIp target env.dnsOutcome
    let ip := jsTruthy ipRaw
    let geoRes : Option (Option GeoRecord) :=
      match ip with
      | some ipAddr => some (ipGeo ipAddr env.geoOutcome)
      | none => none
    let httpsFields : Option Bool × Option Nat :=
      if t == "domain" then
        match env.httpsOk with
        | Except.ok r => (some r.1, some r.2)
        | Except.error _ => (some false, none)
      else (none, none)
    let out0 : Out :=
      { target := target
        ty := some t
        checks := some { rdap := some rdapRes.isSome, https := httpsFields.1 }
        rdap := some rdapRes
        whois := whoisRes
        resolved_ip := some ip
        geo := geoRes
        https_status := httpsFields.2 }
    let probes :=
      [Probe.rdap]
        ++ (if t == "domain" then [Probe.whois, Probe.dns] else [])
        ++ (if ip.isSome then [Probe.geo] else [])
        ++ (if t == "domain" then [Probe.https] else [])
    ({ out0 with score := some (heuristicScore out0) }, probes)
  else
    let out0 : Out :=
      { target := target
        ty := some t
        checks := some {}
        hints := some ("Search " ++ target ++ " on GitHub, Twitter, etc.") }
    ({ out0 with score := some (heuristicScore out0) }, [])

/-- `POST /api/scan` (lines 141-176 of server.js): reject a missing or
empty (falsy) target with the 400 error, otherwise classify and run the
body.  No collaborator throws in the model, so the 500 branch of the
source's outer try/catch is unreachable and the handler responds
`res.json out`. -/
def basicHandler (env : BasicEnv) (req : BasicReq) : Resp × List Probe :=
  match req.target with
  | none => (Resp.badRequest "missing target", [])
  | some target =>
    if target.toList.isEmpty then (Resp.badRequest "missing target", [])
    else
      let t := classifyBasic req.ty target
      (Resp.ok (basicBody env target t).1, (basicBody env target t).2)

/-- The outcome oracle plus configuration for one deep scan:
`paidSessions` is the set of Stripe-verified session ids, `shodanKey` the
optional capability credential, and `probe` the completion of each socket
probe. -/
structure DeepEnv where
  paidSessions : List String
  shodanKey : Option String
  rdapOutcome : FetchOutcome String
  whoisOutcome : Except String String
  dnsOutcome : Except String String
  geoOutcome : FetchOutcome GeoRecord
  portProbe : Nat → Nat → PortProbe
  shodanOutcome : FetchOutcome String

/-- The body of `POST /api/deepscan` (lines 179-210 of server.js). -/
structure DeepReq where
  target : Option String := none
  session_id : Option String := none
  deriving DecidableEq, Repr

/-- The probe-and-merge body of the deep handler given the validated target
(lines 189-203 of server.js).  The record stores every probe result under
`details`; its top-level `checks` and `geo` keys are never assigned. -/
def deepBody (env : DeepEnv) (target : String) : Out × List Probe :=
  let isDomain := isDomainLike target
  let whoisRes : Option (Option String) :=
    if isDomain then some (whoisLookup target env.whoisOutcome) else none
  let rdapRes := rdapLookup target (if isDomain then "domain" else "ip") env.rdapOutcome
  let ipRaw : Option String :=
    if isDomain then resolveToIp target env.dnsOutcome
    else if isIPv4 target then some target else none
  let ip := jsTruthy ipRaw
  let geoRes : Option (Option GeoRecord) :=
    match ip with
    | some ipAddr => some (ipGeo ipAddr env.geoOutcome)
    | none => none
  let portsRes : Option (List PortResult) :=
    match ip with
    | some ipAddr => some (scanPorts ipAddr env.portProbe (COMMON_PORTS.take 20))
    | none => none
  let shodanRes : Option (Option ShodanResult) :=
    match ip with
    | some ipAddr =>
      if env.shodanKey.isSome then some (shodanLookup ipAddr env.shodanKey env.shodanOutcome)
      else none
    | none => none
  let out0 : Out :=
    { target := target
      details := some
        { whois := whoisRes
          rdap := some rdapRes
          geo := geoRes
          ports := portsRes
          shodan := shodanRes }
      resolved_ip := some ip }
  let probes :=
    (if isDomain then [Probe.whois] else [])
      ++ [Probe.rdap]
      ++ (if isDomain then [Probe.dns] else [])
      ++ (if ip.isSome then [Probe.geo, Probe.portConnect] else [])
      ++ (if ip.isSome && env.shodanKey.isSome then [Probe.shodan] else [])
  ({ out0 with score := some (heuristicScore out0) }, probes)

/-- `POST /api/deepscan` (lines 179-210 of server.js): reject a missing or
empty target or session id with the 400 error, then reject a session id not
in `paidSessions` with the 403 error before any probe, otherwise run the
body. -/
def deepscanHandler (env : DeepEnv) (req : DeepReq) : Resp × List Probe :=
  match req.target, req.session_id with
  | some target, some sid =>
    if target.toList.isEmpty || sid.toList.isEmpty then
      (Resp.badRequest "missing target or session_id", [])
    else if env.paidSessions.contains sid then
      (Resp.ok (deepBody env target).1, (deepBody env target).2)
    else
      (Resp.authDenied "Pro access required (no valid payment session)", [])
  | _, _ => (Resp.badRequest "missing target or session_id", [])

/-- A basic request passes input validation when its target is present and
truthy (line 143 of server.js). -/
def basicValid (req : BasicReq) : Bool :=
  match req.target with
  | some t => !t.toList.isEmpty
  | none => false

/-- A deep request passes input validation when target and session id are
both present and truthy (line 181 of server.js). -/
def deepValid (req : DeepReq) : Bool :=
  match req.target, req.session_id with
  | some t, some s => !t.toList.isEmpty && !s.toList.isEmpty
  | _, _ => false

/-- The first adjustment's condition in `heuristicScore`,
`out.checks?.https === false`: an attempted HTTPS check that failed. -/
def httpsFailed (out : Out) : Bool :=
  out.checks.bind CheckFlags.https == some false

/-- The second adjustment's condition in `heuristicScore`,
`out.checks?.rdap === false`: an attempted RDAP lookup that failed. -/
def rdapFailed (out : Out) : Bool :=
  out.checks.bind CheckFlags.rdap == some false

/-- The third adjustment's condition in `heuristicScore`,
`out.geo?.isp && /google/i.test(out.geo.isp)`: the geo record's
network-operator name case-insensitively contains the cloud-provider token
`google`. -/
def cloudTokenMatch (out : Out) : Bool :=
  ((out.geo.bind id).bind GeoRecord.isp).any (fun isp => !isp.toList.isEmpty && containsCI "google" isp)

/-- The score formula exactly as the spec states it (section 4.7): baseline
50, `+15`, `+10`, `-8`, clamp to `[0, 100]`. -/
def scoreSpec (httpsFailedB rdapFailedB cloudMatchB : Bool) : Int :=
  max 0 (min 100
    (50 + (if httpsFailedB then 15 else 0) + (if rdapFailedB then 10 else 0)
      - (if cloudMatchB then 8 else 0)))

/-- A basic-scan oracle under which every collaborator fails. -/
def benvAllFail : BasicEnv :=
  { rdapOutcome := FetchOutcome.exn "network down"
    whoisOutcome := Except.error "whois timeout"
    dnsOutcome := Except.error "NXDOMAIN"
    geoOutcome := FetchOutcome.httpError 503
    httpsOk := Except.error "TLS failure" }

/-- A deep-scan oracle under which every collaborator fails. -/
def denvAllFail : DeepEnv :=
  { paidSessions := ["cs_live_ok"]
    shodanKey := some "shodan-key"
    rdapOutcome := FetchOutcome.exn "network down"
    whoisOutcome := Except.error "whois timeout"
    dnsOutcome := Except.error "NXDOMAIN"
    geoOutcome := FetchOutcome.httpError 503
    portProbe := fun _ _ => PortProbe.localFailure "EINVAL"
    shodanOutcome := FetchOutcome.exn "shodan down" }

/-- A basic-scan oracle under which every collaborator succeeds. -/
def benvSample : BasicEnv :=
  { rdapOutcome := FetchOutcome.ok "rdap-body"
    whoisOutcome := Except.ok "whois-body"
    dnsOutcome := Except.ok "93.184.216.34"
    geoOutcome := FetchOutcome.ok { isp := some "Example ISP" }
    httpsOk := Except.ok (true, 200) }

/-- A deep-scan oracle with no Shodan credential and one paid session. -/
def denvSample : DeepEnv :=
  { paidSessions := ["cs_live_paid"]
    shodanKey := none
    rdapOutcome := FetchOutcome.ok "rdap-body"
    whoisOutcome := Except.ok "whois-body"
    dnsOutcome := Except.ok "93.184.216.34"
    geoOutcome := FetchOutcome.ok { isp := some "Example ISP" }
    portProbe := fun _ _ => PortProbe.errorEvent
    shodanOutcome := FetchOutcome.ok "shodan-body" }

/-! ### Shared lemmas -/

/-- The clamp at the end of `heuristicScore` bounds every score by
`[0, 100]`. -/
lemma heuristicScore_range (out : Out) :
    0 ≤ heuristicScore out ∧ heuristicScore out ≤ 100 := by
  unfold heuristicScore
  exact ⟨le_max_left 0 _, max_le (by norm_num) (min_le_left 100 _)⟩

/-- A record with no `checks` key and no top-level `geo` key scores exactly
the baseline 50. -/
lemma heuristicScore_of_no_checks_geo (out : Out)
    (hc : out.checks = none) (hg : out.geo = none) : heuristicScore out = 50 := by
  unfold heuristicScore
  rw [hc, hg]
  decide

/-- The port-scan loop reproduces the input port list, in order, as the
`port` components of its output. -/
lemma scanPortsAux_map_port (host : String) (probe : Nat → Nat → PortProbe) :
    ∀ (i : Nat) (ports : List Nat),
      (scanPortsAux host probe i ports).map PortResult.port = ports := by
  intro i ports
  induction ports generalizing i with
  | nil => rfl
  | cons p ps ih =>
    unfold scanPortsAux
    cases h : probe i p <;> simp [scanPort, ih]

/-- The port-scan loop yields one entry per input port. -/
lemma scanPortsAux_length (host : String) (probe : Nat → Nat → PortProbe)
    (i : Nat) (ports : List Nat) :
    (scanPortsAux host probe i ports).length = ports.length := by
  have h := congrArg List.length (scanPortsAux_map_port host probe i ports)
  simpa using h

/-- The entry of the port-scan loop at position `j` is determined by the
port at position `j` of the input and the completion of its own probe. -/
lemma scanPortsAux_get? (host : String) (probe : Nat → Nat → PortProbe) :
    ∀ (i j : Nat) (ports : List Nat) (p : Nat), ports[j]? = some p →
      (scanPortsAux host probe i ports)[j]? =
        some (match scanPort host p 1000 (probe (i + j) p) with
              | Except.ok r => r
              | Except.error _ => { port := p, status := "error" }) := by
  intro i j ports
  induction ports generalizing i j with
  | nil => intro p hp; simp at hp
  | cons q qs ih =>
    intro p hp
    cases j with
    | zero =>
      simp at hp
      subst hp
      simp [scanPortsAux]
    | succ j =>
      simp at hp
      have := ih (i + 1) j p hp
      simpa [scanPortsAux, Nat.add_assoc, Nat.add_comm 1 j] using this

/-- An ASCII digit is not an ASCII letter. -/
lemma digitChar_not_asciiLetter (c : Char) (h : digitChar c = true) :
    asciiLetter c = false := by
  unfold digitChar at h
  unfold asciiLetter
  rw [Bool.eq_false_iff]
  intro hc
  simp only [Bool.and_eq_true, Bool.or_eq_true, decide_eq_true_eq] at h hc
  omega

/-- A dotted-quad IPv4 target never matches the domain-like pattern of the
deep-scan handler: its final dot-separated run is digits, not letters. -/
lemma isIPv4_not_domainLike (s : String) (h : isIPv4 s = true) :
    isDomainLike s = false := by
  unfold isIPv4 at h
  simp only [Bool.and_eq_true, beq_iff_eq, List.all_eq_true] at h
  obtain ⟨hlen, hall⟩ := h
  by_contra hcon
  rw [Bool.not_eq_false] at hcon
  unfold isDomainLike at hcon
  simp only [Bool.and_eq_true, decide_eq_true_eq, List.all_eq_true] at hcon
  obtain ⟨⟨⟨⟨_, _⟩, htldlen⟩, htldletters⟩, _⟩ := hcon
  have hne : splitOnDot s.toList ≠ [] := by
    intro h0
    rw [h0] at hlen
    simp at hlen
  have hmem : (splitOnDot s.toList).getLastD [] ∈ splitOnDot s.toList := by
    rw [List.getLastD_eq_getLast?, List.getLast?_eq_getLast _ hne]
    simp [List.getLast_mem]
  obtain ⟨_, hdig⟩ := hall _ hmem
  cases htld : (splitOnDot s.toList).getLastD [] with
  | nil => rw [htld] at htldlen; simp at htldlen
  | cons c cs =>
    have hc1 : digitChar c = true := by
      apply hdig
      rw [htld]
      simp
    have hc2 : asciiLetter c = true := by
      apply htldletters
      rw [htld]
      simp
    rw [digitChar_not_asciiLetter c hc1] at hc2
    exact Bool.false_ne_true hc2

/-- Both branches of the basic body attach a score in `[0, 100]`. -/
lemma basicBody_score (env : BasicEnv) (target t : String) :
    ∃ s, (basicBody env target t).1.score = some s ∧ 0 ≤ s ∧ s ≤ 100 := by
  unfold basicBody
  cases h : (t == "domain" || t == "ip") <;>
    simp only [h, Bool.false_eq_true, if_true, if_false] <;>
    exact ⟨_, rfl, (heuristicScore_range _).1, (heuristicScore_range _).2⟩

/-- The deep body's record defines no `checks` key and no top-level `geo`
key, so its score is always the baseline 50. -/
lemma deepBody_score (env : DeepEnv) (target : String) :
    (deepBody env target).1.score = some 50 :=
  congrArg some (heuristicScore_of_no_checks_geo _ rfl rfl)

/-- A valid basic request reaches the probe-and-merge body and is answered
with `res.json`. -/
lemma basicHandler_eq_ok (env : BasicEnv) (req : BasicReq) (target : String)
    (ht : req.target = some target) (hne : target.toList.isEmpty = false) :
    basicHandler env req =
      (Resp.ok (basicBody env target (classifyBasic req.ty target)).1,
        (basicBody env target (classifyBasic req.ty target)).2) := by
  unfold basicHandler
  rw [ht]
  have hne' : ¬target.data = [] := by simpa using hne
  simp [hne']

/-- A valid, authorized deep request reaches the probe-and-merge body and is
answered with `res.json`. -/
lemma deepscanHandler_eq_ok (env : DeepEnv) (req : DeepReq) (target sid : String)
    (ht : req.target = some target) (hne : target.toList.isEmpty = false)
    (hs : req.session_id = some sid) (hse : sid.toList.isEmpty = false)
    (hpaid : env.paidSessions.contains sid = true) :
    deepscanHandler env req =
      (Resp.ok (deepBody env target).1, (deepBody env target).2) := by
  unfold deepscanHandler
  rw [ht, hs]
  have hne' : ¬target.data = [] := by simpa using hne
  have hse' : ¬sid.data = [] := by simpa using hse
  have hpaid' : sid ∈ env.paidSessions := by simpa using hpaid
  simp [hne', hse', hpaid']

/-- A valid deep request whose session id is not in the paid set is
rejected with the 403 error before any probe. -/
lemma deepscanHandler_eq_denied (env : DeepEnv) (req : DeepReq) (target sid : String)
    (ht : req.target = some target) (hne : target.toList.isEmpty = false)
    (hs : req.session_id = some sid) (hse : sid.toList.isEmpty = false)
    (hpaid : env.paidSessions.contains sid = false) :
    deepscanHandler env req =
      (Resp.authDenied "Pro access required (no valid payment session)", []) := by
  unfold deepscanHandler
  rw [ht, hs]
  have hne' : ¬target.data = [] := by simpa using hne
  have hse' : ¬sid.data = [] := by simpa using hse
  have hpaid' : sid ∉ env.paidSessions := by simpa using hpaid
  simp [hne', hse', hpaid']

/-- An invalid basic request is rejected with the 400 error and no probes;
conversely only invalid requests receive that response. -/
lemma basicHandler_badRequest_iff (env : BasicEnv) (req : BasicReq) :
    ((basicHandler env req).1 = Resp.badRequest "missing target" ↔ basicValid req = false)
      ∧ (basicValid req = false → basicHandler env req = (Resp.badRequest "missing target", [])) := by
  unfold basicHandler basicValid
  cases ht : req.target with
  | none => simp
  | some target =>
    cases hne : target.toList.isEmpty with
    | true =>
      have h1 : target.data = [] := by simpa using hne
      simp [h1]
    | false =>
      have h1 : ¬target.data = [] := by simpa using hne
      simp [h1]

/-- An invalid deep request is rejected with the 400 error and no probes;
conversely only invalid requests receive that response. -/
lemma deepscanHandler_badRequest_iff (env : DeepEnv) (req : DeepReq) :
    ((deepscanHandler env req).1 = Resp.badRequest "missing target or session_id" ↔ deepValid req = false)
      ∧ (deepValid req = false →
          deepscanHandler env req = (Resp.badRequest "missing target or session_id", [])) := by
  unfold deepscanHandler deepValid
  cases ht : req.target with
  | none => simp
  | some target =>
    cases hs : req.session_id with
    | none => simp
    | some sid =>
      cases hne : target.toList.isEmpty with
      | true =>
        have h1 : target.data = [] := by simpa using hne
        simp [h1]
      | false =>
        have h1 : ¬target.data = [] := by simpa using hne
        cases hse : sid.toList.isEmpty with
        | true =>
          have h2 : sid.data = [] := by simpa using hse
          simp [h1, h2]
        | false =>
          have h2 : ¬sid.data = [] := by simpa using hse
          cases hpaid : env.paidSessions.contains sid with
          | true =>
            have h3 : sid ∈ env.paidSessions := by simpa using hpaid
            simp [h1, h2, h3]
          | false =>
            have h3 : sid ∉ env.paidSessions := by simpa using hpaid
            simp [h1, h2, h3]

/-! ### Claim C1: the score formula -/

/-- Claim C1: `heuristicScore` is exactly the stated formula — baseline 50,
`+15` for an attempted-and-failed HTTPS check, `+10` for an
attempted-and-failed RDAP lookup, `-8` for a geo network-operator name
case-insensitively containing the cloud-provider token, clamped to
`[0, 100]`; with no failed checks and no operator match the score is
exactly 50.  It is a pure Lean function of the record, hence deterministic
and free of I/O. -/
theorem heuristicScore_is_spec_formula (out : Out) :
    heuristicScore out = scoreSpec ( httpsFailed out) ( rdapFailed out) (cloudTokenMatch out)
      ∧ 0 ≤ heuristicScore out ∧ heuristicScore out ≤ 100
      ∧ ( httpsFailed out = false → rdapFailed out = false → cloudTokenMatch out = false →
          heuristicScore out = 50) := by
  refine ⟨?_, (heuristicScore_range out).1, (heuristicScore_range out).2, ?_⟩
  · unfold heuristicScore scoreSpec httpsFailed rdapFailed cloudTokenMatch
    cases h1 : (out.checks.bind CheckFlags.https == some false) <;>
      cases h2 : (out.checks.bind CheckFlags.rdap == some false) <;>
        cases h3 : ((out.geo.bind id).bind GeoRecord.isp).any
            (fun isp => !isp.toList.isEmpty && containsCI "google" isp) <;>
          simp [h1, h2, h3]
  · intro h1 h2 h3
    unfold httpsFailed at h1
    unfold rdapFailed at h2
    unfold cloudTokenMatch at h3
    unfold heuristicScore
    simp only [h1, h2, h3]
    decide

/-- Witness for the hypothesis-bearing conjunct of claim C1's theorem: a
record with no failed checks and no operator match scores exactly 50. -/
theorem heuristicScore_is_spec_formula_witness :
    heuristicScore { target := "example.com" } = 50 :=
  (heuristicScore_is_spec_formula { target := "example.com" }).2.2.2 rfl rfl rfl

/-! ### Claim C3: the port scan is total and order-preserving -/

/-- Claim C3: for every host and ordered port list, `scanPorts` returns
exactly one result per requested port, in the order requested, each entry
carrying the port from its own position — for every probe oracle, including
oracles under which some probes fail locally, so a failing probe never
aborts the scan of the remaining ports. -/
theorem scanPorts_one_result_per_port_in_order
    (host : String) (probe : Nat → Nat → PortProbe) (ports : List Nat) :
    (scanPorts host probe ports).map PortResult.port = ports
      ∧ (scanPorts host probe ports).length = ports.length :=
  ⟨scanPortsAux_map_port host probe 0 ports, scanPortsAux_length host probe 0 ports⟩

/-! ### Claim C2: collaborator failures never abort a scan -/

/-- Claim C2: for every request that passes input validation (and, for the
deep profile, authorization) and for every combination of collaborator
outcomes — network errors, timeouts, non-success responses, parse failures
are all values of the outcome oracles — the handler answers `res.json` with
a record carrying a score in `[0, 100]`; each helper absorbs its own
failure into `null`, and a configured Shodan failure becomes an explicit
error record. -/
theorem scan_never_aborted_by_probe_failures
    (benv : BasicEnv) (req : BasicReq) (denv : DeepEnv) (dreq : DeepReq)
    (target sid : String)
    (hb : basicValid req = true)
    (ht : dreq.target = some target) (hne : target.toList.isEmpty = false)
    (hs : dreq.session_id = some sid) (hse : sid.toList.isEmpty = false)
    (hpaid : denv.paidSessions.contains sid = true) :
    (∃ out s, (basicHandler benv req).1 = Resp.ok out ∧ out.score = some s ∧ 0 ≤ s ∧ s ≤ 100)
      ∧ (∃ out s, (deepscanHandler denv dreq).1 = Resp.ok out ∧ out.score = some s ∧ 0 ≤ s ∧ s ≤ 100)
      ∧ (∀ h m, resolveToIp h (Except.error m) = none)
      ∧ (∀ ip m, ipGeo ip (FetchOutcome.exn m) = none)
      ∧ (∀ ip st, ipGeo ip (FetchOutcome.httpError st) = none)
      ∧ (∀ t ty m, rdapLookup t ty (FetchOutcome.exn m) = none)
      ∧ (∀ t ty st, rdapLookup t ty (FetchOutcome.httpError st) = none)
      ∧ (∀ d m, whoisLookup d (Except.error m) = none)
      ∧ (∀ ip k m, shodanLookup ip (some k) (FetchOutcome.exn m) = some (ShodanResult.failure m)) := by
  refine ⟨?_, ?_, fun _ _ => rfl, fun _ _ => rfl, fun _ _ => rfl, fun _ _ _ => rfl,
    fun _ _ _ => rfl, fun _ _ => rfl, fun _ _ _ => rfl⟩
  · unfold basicValid at hb
    cases hbt : req.target with
    | none => rw [hbt] at hb; exact absurd hb (by simp)
    | some t =>
      rw [hbt] at hb
      have hbe : t.toList.isEmpty = false := by simpa using hb
      rw [basicHandler_eq_ok benv req t hbt hbe]
      obtain ⟨s, hscore, h0, h100⟩ := basicBody_score benv t (classifyBasic req.ty t)
      exact ⟨_, s, rfl, hscore, h0, h100⟩
  · rw [deepscanHandler_eq_ok denv dreq target sid ht hne hs hse hpaid]
    exact ⟨_, 50, rfl, deepBody_score denv target, by norm_num, by norm_num⟩

/-- Witness for claim C2's theorem: a concrete valid, authorized request
against fully failing collaborators still yields `res.json` with a bounded
score. -/
theorem scan_never_aborted_witness :
    ∃ out s, (basicHandler benvAllFail { target := some "example.com" }).1 = Resp.ok out
      ∧ out.score = some s ∧ 0 ≤ s ∧ s ≤ 100 :=
  (scan_never_aborted_by_probe_failures benvAllFail { target := some "example.com" }
    denvAllFail { target := some "example.com", session_id := some "cs_live_ok" }
    "example.com" "cs_live_ok" rfl rfl rfl rfl rfl rfl).1

/-! ### Claim C6: per-port status classification -/

/-- Claim C6: the per-port status is `"open"` iff the TCP connect completed
before the timeout; both an active refusal (an `error` event) and an
elapsed timeout yield `"closed"`, deliberately indistinguishable; a
resolved probe never reports `"error"`, and the `"error"` status of a scan
entry arises exactly when that port's probe failed locally (its promise
rejected). -/
theorem scanPort_status_iff
    (host : String) (port : Nat) (o : PortProbe) (r : PortResult)
    (probe : Nat → Nat → PortProbe) (ports : List Nat) (j p : Nat)
    (hok : scanPort host port 1000 o = Except.ok r)
    (hj : ports[j]? = some p) :
    ((r.status = "open" ↔ o = PortProbe.connected)
      ∧ (r.status = "closed" ↔ (o = PortProbe.errorEvent ∨ o = PortProbe.timedOut))
      ∧ r.status ≠ "error")
    ∧ (∀ m, scanPort host port 1000 (PortProbe.localFailure m) = Except.error m)
    ∧ (∃ e, (scanPorts host probe ports)[j]? = some e ∧ e.port = p
        ∧ (e.status = "error" ↔ ∃ m, probe j p = PortProbe.localFailure m)) := by
  refine ⟨?_, fun m => rfl, ?_⟩
  · cases o with
    | connected => cases hok; exact ⟨by simp, by simp, by simp⟩
    | errorEvent => cases hok; exact ⟨by simp, by simp, by simp⟩
    | timedOut => cases hok; exact ⟨by simp, by simp, by simp⟩
    | localFailure m => exact absurd hok (by simp [scanPort])
  · have h := scanPortsAux_get? host probe 0 j ports p hj
    rw [Nat.zero_add] at h
    unfold scanPorts
    cases hop : probe j p with
    | connected => rw [hop] at h; exact ⟨_, h, rfl, by simp [scanPort]⟩
    | errorEvent => rw [hop] at h; exact ⟨_, h, rfl, by simp [scanPort]⟩
    | timedOut => rw [hop] at h; exact ⟨_, h, rfl, by simp [scanPort]⟩
    | localFailure m => rw [hop] at h; exact ⟨_, h, rfl, by simp [scanPort]⟩

/-- Witness for claim C6's theorem at a concrete probe: a timed-out connect
is reported `"closed"`, not `"error"`. -/
theorem scanPort_status_iff_witness :
    ∃ e, (scanPorts "198.51.100.7" (fun _ _ => PortProbe.timedOut) [443])[0]? = some e
      ∧ e.port = 443
      ∧ (e.status = "error"
          ↔ ∃ m, (fun _ _ => PortProbe.timedOut : Nat → Nat → PortProbe) 0 443 = PortProbe.localFailure m) :=
  (scanPort_status_iff "198.51.100.7" 443 PortProbe.timedOut { port := 443, status := "closed" }
    (fun _ _ => PortProbe.timedOut) [443] 0 443 rfl rfl).2.2

/-- Neither branch of the basic body assigns a top-level `ports` key or a
`details` object. -/
lemma basicBody_no_ports (env : BasicEnv) (target t : String) :
    ((basicBody env target t).1).ports = none ∧ ((basicBody env target t).1).details = none := by
  unfold basicBody
  cases h : (t == "domain" || t == "ip") <;> simp [h]

/-- Every `res.json` answer of the basic handler is the record built by the
basic body. -/
lemma basicHandler_ok_inv (env : BasicEnv) (req : BasicReq) (out : Out)
    (h : (basicHandler env req).1 = Resp.ok out) :
    ∃ target t, out = (basicBody env target t).1 := by
  unfold basicHandler at h
  split at h
  · exact absurd h (by simp)
  · rename_i target heq
    split at h
    · exact absurd h (by simp)
    · simp only [Resp.ok.injEq] at h
      exact ⟨target, classifyBasic req.ty target, h.symm⟩

/-- Every `res.json` answer of the deep handler is the record built by the
deep body. -/
lemma deepscanHandler_ok_inv (env : DeepEnv) (req : DeepReq) (out : Out)
    (h : (deepscanHandler env req).1 = Resp.ok out) :
    ∃ target, out = (deepBody env target).1 := by
  unfold deepscanHandler at h
  split at h
  · rename_i target sid heq1 heq2
    split at h
    · exact absurd h (by simp)
    · split at h
      · simp only [Resp.ok.injEq] at h
        exact ⟨target, h.symm⟩
      · exact absurd h (by simp)
  · exact absurd h (by simp)

/-- The probes of a deep-scan response are either empty (rejected request)
or those of the deep body. -/
lemma deepscanHandler_probes_inv (env : DeepEnv) (req : DeepReq) :
    (deepscanHandler env req).2 = []
      ∨ ∃ target, (deepscanHandler env req).2 = (deepBody env target).2 := by
  unfold deepscanHandler
  split
  · split
    · exact Or.inl rfl
    · split
      · exact Or.inr ⟨_, rfl⟩
      · exact Or.inl rfl
  · exact Or.inl rfl

/-- With no Shodan credential configured, the deep body records no Shodan
probe and its record carries no `shodan` key. -/
lemma deepBody_shodan_none (env : DeepEnv) (target : String) (hk : env.shodanKey = none) :
    Probe.shodan ∉ (deepBody env target).2
      ∧ ((deepBody env target).1).details.bind Details.shodan = none := by
  unfold deepBody
  simp only [hk, Option.isSome_none, Bool.and_false, Bool.false_eq_true, if_false]
  constructor
  · cases hd : isDomainLike target <;>
      cases hip : jsTruthy (if isDomainLike target then resolveToIp target env.dnsOutcome
          else if isIPv4 target then some target else none) <;>
        simp_all
  · cases hip : jsTruthy (if isDomainLike target then resolveToIp target env.dnsOutcome
        else if isIPv4 target then some target else none) <;>
      simp_all

/-- For a dotted-quad IPv4 target, the deep body always stores the result
of the port scan over `COMMON_PORTS.take 20` and records the port-connect
probes. -/
lemma deepBody_ports_ipv4 (env : DeepEnv) (target : String)
    (hip : isIPv4 target = true) (hne : target.toList.isEmpty = false) :
    ((deepBody env target).1).details.bind Details.ports
        = some (scanPorts target env.portProbe (COMMON_PORTS.take 20))
      ∧ Probe.portConnect ∈ (deepBody env target).2 := by
  have hd := isIPv4_not_domainLike target hip
  have hne' : ¬target.data = [] := by simpa using hne
  unfold deepBody
  simp [hd, hip, jsTruthy, hne']

/-! ### Claims C4, C5, C7, C8, C9, C10 -/

/-- Claim C4 counterexample: `"not a domain!!"` matches neither the IPv4
pattern nor the domain-like pattern, yet the basic scan with no explicit
kind classifies it `"domain"` — it is treated as a Domain target (and runs
the domain probes), not as Unclassified as the claim states. -/
theorem classify_freetext_counterexample :
    isIPv4 "not a domain!!" = false ∧ isDomainLike "not a domain!!" = false
      ∧ classifyBasic none "not a domain!!" = "domain" :=
  ⟨rfl, rfl, rfl⟩

/-- Claim C4 (amended): with no explicit kind the basic scan classifies
two-way — a target matching the dotted-quad IPv4 pattern is `"ip"` and any
other target is `"domain"` — so `"93.184.216.34"` is IP and
`"example.com"` is Domain as claimed, but `"not a domain!!"` is Domain, not
Unclassified; the unclassified (hints) branch is reachable only through an
explicitly supplied kind that is neither `"ip"` nor `"domain"`.  The deep
scan's separate domain-like pattern accepts `"example.com"` and rejects
both `"93.184.216.34"` and `"not a domain!!"`. -/
theorem classification_is_two_way (target k : String) (hk : k.toList.isEmpty = false) :
    classifyBasic none target = (if isIPv4 target then "ip" else "domain")
      ∧ classifyBasic (some k) target = k
      ∧ classifyBasic none "93.184.216.34" = "ip"
      ∧ classifyBasic none "example.com" = "domain"
      ∧ classifyBasic none "not a domain!!" = "domain"
      ∧ isDomainLike "example.com" = true
      ∧ isDomainLike "93.184.216.34" = false
      ∧ isDomainLike "not a domain!!" = false := by
  refine ⟨rfl, ?_, rfl, rfl, rfl, rfl, rfl, rfl⟩
  unfold classifyBasic
  have hk' : ¬k.data = [] := by simpa using hk
  simp [hk']

/-- Witness for claim C4's amended theorem: a non-empty explicit kind wins
over the pattern match. -/
theorem classification_is_two_way_witness :
    classifyBasic (some "ip") "whatever" = "ip" :=
  (classification_is_two_way "whatever" "ip" rfl).2.1

/-- Claim C5 counterexample: with the authorization token absent entirely
(and a perfectly good target), the deep-scan handler answers the
missing-input 400 response, not the 403 `AuthorizationDenied` response, so
the claim's "absent" case fails; no probe is invoked either way. -/
theorem deepscan_absent_token_counterexample :
    deepscanHandler denvSample { target := some "example.com", session_id := none }
        = (Resp.badRequest "missing target or session_id", [])
      ∧ (deepscanHandler denvSample { target := some "example.com", session_id := none }).1
          ≠ Resp.authDenied "Pro access required (no valid payment session)" :=
  ⟨rfl, by decide⟩

/-- Claim C5 (amended): a deep request whose token is present and non-empty
but not attested by the paid-sessions capability fails with
`AuthorizationDenied` and invokes zero collaborator probes; a request with
the token absent instead fails with the missing-input client error, also
with zero probes. -/
theorem deepscan_unauthorized_denied_before_probes
    (env env2 : DeepEnv) (req : DeepReq) (target sid t2 : String)
    (ht : req.target = some target) (hne : target.toList.isEmpty = false)
    (hs : req.session_id = some sid) (hse : sid.toList.isEmpty = false)
    (hpaid : env.paidSessions.contains sid = false) :
    deepscanHandler env req
        = (Resp.authDenied "Pro access required (no valid payment session)", [])
      ∧ deepscanHandler env2 { target := some t2, session_id := none }
          = (Resp.badRequest "missing target or session_id", []) :=
  ⟨deepscanHandler_eq_denied env req target sid ht hne hs hse hpaid, rfl⟩

/-- Witness for claim C5's amended theorem: a concrete unknown session id
is denied with no probes. -/
theorem deepscan_unauthorized_denied_witness :
    deepscanHandler denvSample { target := some "10.0.0.1", session_id := some "cs_bad" }
      = (Resp.authDenied "Pro access required (no valid payment session)", []) :=
  (deepscan_unauthorized_denied_before_probes denvSample denvSample
    { target := some "10.0.0.1", session_id := some "cs_bad" } "10.0.0.1" "cs_bad" "x"
    rfl rfl rfl rfl rfl).1

/-- Claim C7 counterexample: a deep request with the non-empty target
`"10.0.0.1"` but no session id still fails with the missing-input client
error, so the failure is not reserved to empty/missing targets: `run` on a
deep request also requires the session token. -/
theorem invalid_input_nonempty_target_counterexample :
    "10.0.0.1".toList.isEmpty = false
      ∧ deepscanHandler denvSample { target := some "10.0.0.1", session_id := none }
          = (Resp.badRequest "missing target or session_id", []) :=
  ⟨rfl, rfl⟩

/-- Claim C7 (amended): the basic handler fails with the invalid-input
client error exactly when the target is missing or empty — so for the
basic profile a non-empty target never yields it — while the deep handler
fails with it exactly when the target or the session id is missing or
empty; in every such case no probe runs. -/
theorem invalid_input_exactly_when_fields_missing
    (benv : BasicEnv) (req : BasicReq) (denv : DeepEnv) (dreq : DeepReq) :
    ((basicHandler benv req).1 = Resp.badRequest "missing target" ↔ basicValid req = false)
      ∧ (basicValid req = false →
          basicHandler benv req = (Resp.badRequest "missing target", []))
      ∧ ((deepscanHandler denv dreq).1 = Resp.badRequest "missing target or session_id"
          ↔ deepValid dreq = false)
      ∧ (deepValid dreq = false →
          deepscanHandler denv dreq = (Resp.badRequest "missing target or session_id", [])) :=
  ⟨(basicHandler_badRequest_iff benv req).1, (basicHandler_badRequest_iff benv req).2,
    (deepscanHandler_badRequest_iff denv dreq).1, (deepscanHandler_badRequest_iff denv dreq).2⟩

/-- Witness for claim C7's amended theorem: an empty target is rejected
with no probes. -/
theorem invalid_input_exactly_when_fields_missing_witness :
    basicHandler benvSample { target := some "" } = (Resp.badRequest "missing target", []) :=
  (invalid_input_exactly_when_fields_missing benvSample { target := some "" } denvSample
    { target := none, session_id := none }).2.1 rfl

/-- Claim C8: with no Shodan credential configured the deep handler never
invokes the enrichment — no Shodan probe is recorded and the response
carries no `shodan` key at all; with a credential configured, a non-success
response or an exception yields an explicit error record rather than
`null`, so "not configured" (absent) stays distinguishable from
"configured but failed" (error record). -/
theorem shodan_skipped_or_error_record
    (env : DeepEnv) (req : DeepReq) (k : String)
    (hk : env.shodanKey = none) :
    Probe.shodan ∉ (deepscanHandler env req).2
      ∧ (∀ out, (deepscanHandler env req).1 = Resp.ok out →
          out.details.bind Details.shodan = none)
      ∧ (∀ ip o, shodanLookup ip none o = none)
      ∧ (∀ ip st, shodanLookup ip (some k) (FetchOutcome.httpError st)
            = some (ShodanResult.failure ("shodan:" ++ toString st)))
      ∧ (∀ ip m, shodanLookup ip (some k) (FetchOutcome.exn m) = some (ShodanResult.failure m))
      ∧ (∀ ip st, shodanLookup ip (some k) (FetchOutcome.httpError st) ≠ none) := by
  refine ⟨?_, ?_, fun _ _ => rfl, fun _ _ => rfl, fun _ _ => rfl, fun _ _ => by simp [shodanLookup]⟩
  · rcases deepscanHandler_probes_inv env req with h | ⟨target, h⟩
    · rw [h]
      simp
    · rw [h]
      exact (deepBody_shodan_none env target hk).1
  · intro out hout
    obtain ⟨target, rfl⟩ := deepscanHandler_ok_inv env req out hout
    exact (deepBody_shodan_none env target hk).2

/-- Witness for claim C8's theorem: with no credential, a concrete deep
scan records no Shodan probe. -/
theorem shodan_skipped_witness :
    Probe.shodan ∉ (deepscanHandler denvSample
      { target := some "10.0.0.1", session_id := some "cs_live_paid" }).2 :=
  (shodan_skipped_or_error_record denvSample
    { target := some "10.0.0.1", session_id := some "cs_live_paid" } "any-key" rfl).1

/-- Claim C9: a basic response never carries port data — no top-level
`ports` key and no `details` object at all — while a valid, authorized deep
request for a dotted-quad IPv4 target always attempts the port scan, over
the fixed-size (20) prefix of the fixed ordered candidate list, which is
exactly the list stated. -/
theorem ports_only_in_deep_ip_scan
    (benv : BasicEnv) (req : BasicReq) (denv : DeepEnv) (dreq : DeepReq)
    (target sid : String)
    (ht : dreq.target = some target) (hip : isIPv4 target = true)
    (hne : target.toList.isEmpty = false)
    (hs : dreq.session_id = some sid) (hse : sid.toList.isEmpty = false)
    (hpaid : denv.paidSessions.contains sid = true) :
    (∀ out, (basicHandler benv req).1 = Resp.ok out → out.ports = none ∧ out.details = none)
      ∧ (∃ out, (deepscanHandler denv dreq).1 = Resp.ok out
          ∧ out.details.bind Details.ports
              = some (scanPorts target denv.portProbe (COMMON_PORTS.take 20)))
      ∧ Probe.portConnect ∈ (deepscanHandler denv dreq).2
      ∧ COMMON_PORTS = [80, 443, 21, 22, 25, 53, 110, 143, 161, 3306, 3389, 5900,
          8080, 8443, 587, 993, 995, 2082, 2083, 8444]
      ∧ COMMON_PORTS.take 20 = COMMON_PORTS := by
  refine ⟨?_, ?_, ?_, rfl, rfl⟩
  · intro out hout
    obtain ⟨tg, tt, rfl⟩ := basicHandler_ok_inv benv req out hout
    exact basicBody_no_ports benv tg tt
  · rw [deepscanHandler_eq_ok denv dreq target sid ht hne hs hse hpaid]
    exact ⟨_, rfl, (deepBody_ports_ipv4 denv target hip hne).1⟩
  · rw [deepscanHandler_eq_ok denv dreq target sid ht hne hs hse hpaid]
    exact (deepBody_ports_ipv4 denv target hip hne).2

/-- Witness for claim C9's theorem: a concrete authorized deep scan of an
IPv4 target records the port-connect probes. -/
theorem ports_only_in_deep_ip_scan_witness :
    Probe.portConnect ∈ (deepscanHandler denvAllFail
      { target := some "10.9.8.7", session_id := some "cs_live_ok" }).2 :=
  (ports_only_in_deep_ip_scan benvSample { target := some "x" } denvAllFail
    { target := some "10.9.8.7", session_id := some "cs_live_ok" } "10.9.8.7" "cs_live_ok"
    rfl rfl rfl rfl rfl rfl).2.2.1

/-- Claim C10: every deep-scan response that passes validation and
authorization carries score exactly 50, for all probe outcomes — the deep
record stores its results under `details` and never assigns `checks` or a
top-level `geo` key, while `heuristicScore` reads only those two keys of
the record it is given. -/
theorem deep_score_always_fifty (env : DeepEnv) (req : DeepReq) (out : Out)
    (h : (deepscanHandler env req).1 = Resp.ok out) :
    out.score = some 50 ∧ out.checks = none ∧ out.geo = none := by
  obtain ⟨target, rfl⟩ := deepscanHandler_ok_inv env req out h
  exact ⟨deepBody_score env target, rfl, rfl⟩

/-- Witness for claim C10's theorem: a concrete authorized deep scan, with
every collaborator failing, still scores exactly 50. -/
theorem deep_score_always_fifty_witness :
    ((deepBody denvAllFail "example.com").1).score = some 50 :=
  (deep_score_always_fifty denvAllFail
    { target := some "example.com", session_id := some "cs_live_ok" }
    (deepBody denvAllFail "example.com").1 rfl).1

end LegendCyber
